import Mathlib

/-!
Verification development for the grid-based multi-snake game (src/script.js).

The JavaScript source is shallowly embedded: plain numbers become `Int`
(grid positions and direction components are exact small integers in the
source), the speed/interval quantities become `ℚ`, mutable objects become
Lean structures updated by pure functions, and the two sources of
nondeterminism (`Math.random` draws and wall-clock `Date.now()`) become
explicit parameters (streams of draws and an `Int` timestamp).
-/

namespace SnakeGame

/-! ### Game constants (script.js lines 12-19) -/

def GRID_SIZE : Int := 20

def CANVAS_WIDTH : Int := 1000

def CANVAS_HEIGHT : Int := 650

def GRACE_PERIOD : Int := 2000

/-- Constant `BASE_MOVE_INTERVAL = 1000 / BASE_MOVES_PER_SECOND` with 8 moves per second. -/
def BASE_MOVE_INTERVAL : ℚ := 1000 / 8

def SPEED_INCREASE_RATE : ℚ := 1 / 10

def MAX_SPEED_MULTIPLIER : ℚ := 2

/-! ### Grid vectors: positions and unit directions (`{x, y}` objects) -/

/-- A `{x, y}` pair as used for both positions and direction vectors. -/
structure GVec where
  x : Int
  y : Int
deriving DecidableEq

/-- Componentwise negation `{x: -v.x, y: -v.y}`; the "exact reverse" of a heading. -/
def dirNeg (v : GVec) : GVec := ⟨-v.x, -v.y⟩

/-- The four unit directions, in the order of the `directions` arrays in the source
(lines 399-402, 630-633). -/
def unitDirections : List GVec := [⟨1, 0⟩, ⟨-1, 0⟩, ⟨0, 1⟩, ⟨0, -1⟩]

/-- A direction is one of the four unit vectors produced by the key mapping. -/
def isUnitDir (d : GVec) : Prop :=
  d = ⟨1, 0⟩ ∨ d = ⟨-1, 0⟩ ∨ d = ⟨0, 1⟩ ∨ d = ⟨0, -1⟩

instance (d : GVec) : Decidable (isUnitDir d) := by
  unfold isUnitDir; infer_instance

theorem isUnitDir_ne_dirNeg {d : GVec} (h : isUnitDir d) : d ≠ dirNeg d := by
  rcases h with h | h | h | h <;> subst h <;> decide

/-! ### InputHandler (script.js lines 25-126) -/

/-- Mutable state of the `InputHandler` class: the buffered direction queue, the
committed heading, and the pause/start key flags. -/
structure InputHandler where
  directionQueue : List GVec
  currentDirection : GVec
  pauseKeyDown : Bool
  pauseKeyWasDown : Bool
  startKeyPressed : Bool
deriving DecidableEq

/-- The constructor state (lines 27-31): empty queue, heading right, flags clear. -/
def initInput : InputHandler :=
  { directionQueue := []
    currentDirection := ⟨1, 0⟩
    pauseKeyDown := false
    pauseKeyWasDown := false
    startKeyPressed := false }

/-- The keys the handler reacts to (lines 42-59); `other` stands for every other key. -/
inductive Key where
  | arrowUp | arrowDown | arrowLeft | arrowRight
  | keyW | keyA | keyS | keyD
  | space | keyP | enter | other
deriving DecidableEq

/-- The `newDirection` computed from a key (lines 42-49); `none` for non-direction keys. -/
def keyDirection : Key → Option GVec
  | .arrowUp | .keyW => some ⟨0, -1⟩
  | .arrowDown | .keyS => some ⟨0, 1⟩
  | .arrowLeft | .keyA => some ⟨-1, 0⟩
  | .arrowRight | .keyD => some ⟨1, 0⟩
  | _ => none

/-- Method `handleKeyDown` (lines 37-81). For a direction key: reject the exact reverse of
the committed heading, remove duplicates of the new direction from the queue, then
append it if it differs from the committed heading. Pause/start keys set flags. -/
def handleKeyDown (k : Key) (st : InputHandler) : InputHandler :=
  match keyDirection k with
  | some nd =>
    if nd = dirNeg st.currentDirection then st
    else
      let q := st.directionQueue.filter (fun d => decide (d ≠ nd))
      if nd ≠ st.currentDirection then { st with directionQueue := q ++ [nd] }
      else { st with directionQueue := q }
  | none =>
    match k with
    | .space | .keyP => { st with pauseKeyDown := true, startKeyPressed := true }
    | .enter => { st with startKeyPressed := true }
    | _ => st

/-- Method `handleKeyUp` (lines 99-107): clears the pause/start flags. -/
def handleKeyUp (k : Key) (st : InputHandler) : InputHandler :=
  match k with
  | .space | .keyP => { st with pauseKeyDown := false, pauseKeyWasDown := false }
  | .enter => { st with startKeyPressed := false }
  | _ => st

/-- Method `getNextDirection` (lines 84-97): shift the oldest queued entry; commit it unless
it is the exact reverse of the committed heading; return the committed heading. -/
def getNextDirection (st : InputHandler) : GVec × InputHandler :=
  match st.directionQueue with
  | [] => (st.currentDirection, st)
  | nextDir :: rest =>
    if ¬(nextDir.x = -st.currentDirection.x ∧ nextDir.y = -st.currentDirection.y) then
      (nextDir, { st with directionQueue := rest, currentDirection := nextDir })
    else
      (st.currentDirection, { st with directionQueue := rest })

/-- Method `checkStartPressed` (lines 110-116): reads and clears the start flag. -/
def checkStartPressed (st : InputHandler) : Bool × InputHandler :=
  if st.startKeyPressed then (true, { st with startKeyPressed := false })
  else (false, st)

/-- Method `checkPauseToggle` (lines 119-125): edge detection on the pause key. -/
def checkPauseToggle (st : InputHandler) : Bool × InputHandler :=
  if st.pauseKeyDown && !st.pauseKeyWasDown then
    (true, { st with pauseKeyWasDown := true })
  else (false, st)

/-- Externally visible events driving the input handler: key presses/releases and
movement ticks (the game calling `getNextDirection`). -/
inductive InputEvent where
  | keyDown (k : Key)
  | keyUp (k : Key)
  | tick
deriving DecidableEq

def applyInputEvent (st : InputHandler) : InputEvent → InputHandler
  | .keyDown k => handleKeyDown k st
  | .keyUp k => handleKeyUp k st
  | .tick => (getNextDirection st).2

/-- The input-handler state reached from the constructor state by a sequence of events. -/
def runInput (es : List InputEvent) : InputHandler :=
  es.foldl applyInputEvent initInput

/-! ### Reachable-state invariant of the input handler -/

/-- Invariant maintained by the input handler: the committed heading is a unit
direction, every queued entry is a unit direction, and the queued entries are
pairwise distinct. -/
def inputInv (st : InputHandler) : Prop :=
  isUnitDir st.currentDirection ∧ (∀ d ∈ st.directionQueue, isUnitDir d) ∧
    st.directionQueue.Pairwise (fun a b => a ≠ b)

theorem inputInv_init : inputInv initInput := by
  refine ⟨Or.inl rfl, ?_, ?_⟩ <;> simp [initInput]

theorem keyDirection_unit {k : Key} {d : GVec} (h : keyDirection k = some d) :
    isUnitDir d := by
  cases k <;> simp [keyDirection] at h <;> simp [isUnitDir, ← h]

theorem inputInv_handleKeyDown (k : Key) {st : InputHandler} (h : inputInv st) :
    inputInv (handleKeyDown k st) := by
  obtain ⟨hcur, hq, hp⟩ := h
  unfold handleKeyDown
  cases hkd : keyDirection k with
  | none =>
    cases k <;> simp [keyDirection] at hkd ⊢ <;> exact ⟨hcur, hq, hp⟩
  | some nd =>
    dsimp only
    have hnd : isUnitDir nd := keyDirection_unit hkd
    by_cases hrev : nd = dirNeg st.currentDirection
    · simp only [hrev, if_pos rfl]
      exact ⟨hcur, hq, hp⟩
    · rw [if_neg hrev]
      have hfilter_mem : ∀ d ∈ st.directionQueue.filter (fun d => decide (d ≠ nd)),
          isUnitDir d := by
        intro d hd
        exact hq d (List.mem_of_mem_filter hd)
      have hfilter_pair :
          (st.directionQueue.filter (fun d => decide (d ≠ nd))).Pairwise
            (fun a b => a ≠ b) :=
        hp.sublist (List.filter_sublist _)
      by_cases hne : nd ≠ st.currentDirection
      · rw [if_pos hne]
        refine ⟨hcur, ?_, ?_⟩
        · intro d hd
          rcases List.mem_append.mp hd with hd | hd
          · exact hfilter_mem d hd
          · simp at hd; subst hd; exact hnd
        · rw [List.pairwise_append]
          refine ⟨hfilter_pair, by simp, ?_⟩
          intro a ha b hb
          simp at hb; subst hb
          have := List.of_mem_filter ha
          simpa using this
      · rw [if_neg hne]
        exact ⟨hcur, hfilter_mem, hfilter_pair⟩

theorem inputInv_handleKeyUp (k : Key) {st : InputHandler} (h : inputInv st) :
    inputInv (handleKeyUp k st) := by
  obtain ⟨hcur, hq, hp⟩ := h
  unfold handleKeyUp
  cases k <;> exact ⟨hcur, hq, hp⟩

theorem inputInv_getNextDirection {st : InputHandler} (h : inputInv st) :
    inputInv (getNextDirection st).2 := by
  obtain ⟨hcur, hq, hp⟩ := h
  unfold getNextDirection
  cases hqe : st.directionQueue with
  | nil => exact ⟨hcur, hq, hp⟩
  | cons d rest =>
    dsimp only
    have hd : isUnitDir d := hq d (by rw [hqe]; exact List.mem_cons_self d rest)
    have hrest : ∀ e ∈ rest, isUnitDir e := by
      intro e he
      exact hq e (by rw [hqe]; exact List.mem_cons_of_mem d he)
    have hprest : rest.Pairwise (fun a b => a ≠ b) := by
      rw [hqe] at hp; exact hp.of_cons
    by_cases hcond : ¬(d.x = -st.currentDirection.x ∧ d.y = -st.currentDirection.y)
    · rw [if_pos hcond]
      exact ⟨hd, hrest, hprest⟩
    · rw [if_neg hcond]
      exact ⟨hcur, hrest, hprest⟩

theorem inputInv_run (es : List InputEvent) : inputInv (runInput es) := by
  suffices h : ∀ st, inputInv st → inputInv (es.foldl applyInputEvent st) from
    h initInput inputInv_init
  induction es with
  | nil => intro st h; exact h
  | cons e rest ih =>
    intro st h
    refine ih _ ?_
    cases e with
    | keyDown k => exact inputInv_handleKeyDown k h
    | keyUp k => exact inputInv_handleKeyUp k h
    | tick => exact inputInv_getNextDirection h

/-- C1: For every sequence of key events and movement ticks, the heading that
`getNextDirection` returns and commits is never the exact reverse of the heading
committed before the call; an illegal 180-degree reversal is never committed. -/
theorem nextDirection_never_reverses (es : List InputEvent) :
    (getNextDirection (runInput es)).1 ≠ dirNeg (runInput es).currentDirection ∧
      (getNextDirection (runInput es)).2.currentDirection =
        (getNextDirection (runInput es)).1 := by
  obtain ⟨hcur, hq, hp⟩ := inputInv_run es
  constructor
  · unfold getNextDirection
    cases hqe : (runInput es).directionQueue with
    | nil => exact isUnitDir_ne_dirNeg hcur
    | cons d rest =>
      dsimp only
      by_cases hcond : ¬(d.x = -(runInput es).currentDirection.x ∧
          d.y = -(runInput es).currentDirection.y)
      · rw [if_pos hcond]
        intro heq
        simp only at heq
        exact hcond ⟨by rw [heq]; rfl, by rw [heq]; rfl⟩
      · rw [if_neg hcond]
        exact isUnitDir_ne_dirNeg hcur
  · unfold getNextDirection
    cases hqe : (runInput es).directionQueue with
    | nil => rfl
    | cons d rest =>
      dsimp only
      by_cases hcond : ¬(d.x = -(runInput es).currentDirection.x ∧
          d.y = -(runInput es).currentDirection.y)
      · rw [if_pos hcond]
      · rw [if_neg hcond]

/-- C4 counterexample: after submitting up then down and committing one tick, the
queue contains the exact reverse of the currently committed heading, refuting the
claimed invariant "the queue never contains the direct reverse of the currently
committed heading". -/
theorem directionQueue_reverse_member_cex :
    dirNeg (runInput [.keyDown .arrowUp, .keyDown .arrowDown, .tick]).currentDirection
      ∈ (runInput [.keyDown .arrowUp, .keyDown .arrowDown, .tick]).directionQueue := by
  decide

/-- C4 (amended): for every reachable state of the direction queue, no two queued
entries are equal (in particular no two consecutive ones), and submitting the exact
reverse of the currently committed heading is a no-op, so the queue never gains the
reverse of the heading committed at submission time; a queued entry may become the
reverse of the heading only after the heading changes, and is then discarded rather
than committed. -/
theorem directionQueue_amended_inv (es : List InputEvent) :
    (runInput es).directionQueue.Pairwise (fun a b => a ≠ b) ∧
      ∀ k : Key, keyDirection k = some (dirNeg (runInput es).currentDirection) →
        handleKeyDown k (runInput es) = runInput es := by
  obtain ⟨_, _, hp⟩ := inputInv_run es
  refine ⟨hp, ?_⟩
  intro k hk
  unfold handleKeyDown
  rw [hk]
  simp

/-- Witness for the amended C4 theorem at a concrete state: with heading right,
pressing left (the exact reverse) leaves the handler state unchanged. -/
theorem directionQueue_amended_inv_witness :
    keyDirection Key.arrowLeft =
        some (dirNeg (runInput [.keyDown .arrowUp]).currentDirection) ∧
      handleKeyDown Key.arrowLeft (runInput [.keyDown .arrowUp]) =
        runInput [.keyDown .arrowUp] :=
  ⟨by decide, (directionQueue_amended_inv [.keyDown .arrowUp]).2 Key.arrowLeft (by decide)⟩

/-! ### Snake movement and collision predicates (script.js lines 132-196) -/

/-- A snake is its ordered list of segment centers, head first; cosmetic fields
(color, segment size, blink timers) are not part of the simulation state. -/
def snakeHead (segments : List GVec) : GVec := segments.headD ⟨0, 0⟩

/-- Method `Snake.update` (lines 151-160): unshift `head + direction * GRID_SIZE`, pop the
last segment. The source indexes `segments[0]` and so assumes a non-empty snake;
all theorems below carry that assumption. -/
def snakeUpdate (segments : List GVec) (direction : GVec) : List GVec :=
  let head := snakeHead segments
  let newHead : GVec := ⟨head.x + direction.x * GRID_SIZE, head.y + direction.y * GRID_SIZE⟩
  (newHead :: segments).dropLast

/-- Method `Snake.grow` (lines 162-165): push a copy of the tail segment. -/
def snakeGrow (segments : List GVec) : List GVec :=
  segments ++ [segments.getLastD ⟨0, 0⟩]

/-- Method `Snake.checkWallCollision` (lines 167-171). -/
def checkWallCollision (w h : Int) (segments : List GVec) : Bool :=
  let head := snakeHead segments
  decide (head.x < GRID_SIZE / 2) || decide (head.x ≥ w - GRID_SIZE / 2) ||
    decide (head.y < GRID_SIZE / 2) || decide (head.y ≥ h - GRID_SIZE / 2)

/-- Method `Snake.checkSelfCollision` (lines 173-181): head equals a non-head segment. -/
def checkSelfCollision (segments : List GVec) : Bool :=
  segments.tail.any (fun seg => decide (snakeHead segments = seg))

/-- Method `Snake.checkCollisionWithSnake` (lines 183-191): head equals any segment of the
other snake. -/
def checkCollisionWithSnake (segments other : List GVec) : Bool :=
  other.any (fun seg => decide (snakeHead segments = seg))

/-- Method `Snake.checkFoodCollision` (lines 193-196): head equals the food position. -/
def checkFoodCollision (segments : List GVec) (food : GVec) : Bool :=
  decide (snakeHead segments = food)

/-- The specified net effect of one advance step: new head at the old head
translated one cell along the heading, inserted in front, with the old tail
dropped; plus the growth and length facts. -/
def advanceSpec (segments : List GVec) (direction : GVec) : Prop :=
  snakeUpdate segments direction =
      ⟨(snakeHead segments).x + direction.x * GRID_SIZE,
        (snakeHead segments).y + direction.y * GRID_SIZE⟩ :: segments.dropLast ∧
    (snakeUpdate segments direction).length = segments.length ∧
    snakeGrow segments = segments ++ [segments.getLastD ⟨0, 0⟩] ∧
    (snakeGrow segments).length = segments.length + 1

/-- A concrete 6-segment snake heading right, at the player spawn row. -/
def demoSnake6 : List GVec :=
  [⟨510, 330⟩, ⟨490, 330⟩, ⟨470, 330⟩, ⟨450, 330⟩, ⟨430, 330⟩, ⟨410, 330⟩]

/-- C5: one advance step translates the head one cell along the heading, keeps the
segment count, and drops the old tail; `grow` duplicates the tail and adds exactly
one segment; concretely, the 6-segment snake heading right ends with its head one
cell right, length still 6, and the old tail cell gone. -/
theorem snake_advance_and_grow_spec (segments : List GVec) (direction : GVec)
    (h : segments ≠ []) :
    advanceSpec segments direction ∧
      snakeUpdate demoSnake6 ⟨1, 0⟩ =
        [⟨530, 330⟩, ⟨510, 330⟩, ⟨490, 330⟩, ⟨470, 330⟩, ⟨450, 330⟩, ⟨430, 330⟩] := by
  refine ⟨⟨?_, ?_, rfl, ?_⟩, by decide⟩
  · unfold snakeUpdate
    cases segments with
    | nil => exact absurd rfl h
    | cons a rest => simp [List.dropLast]
  · unfold snakeUpdate
    cases segments with
    | nil => exact absurd rfl h
    | cons a rest => simp
  · unfold snakeGrow
    simp

/-- Witness for C5 at the concrete demo snake. -/
theorem snake_advance_and_grow_spec_witness :
    demoSnake6 ≠ [] ∧
      (advanceSpec demoSnake6 ⟨0, 1⟩ ∧
        snakeUpdate demoSnake6 ⟨1, 0⟩ =
          [⟨530, 330⟩, ⟨510, 330⟩, ⟨490, 330⟩, ⟨470, 330⟩, ⟨450, 330⟩, ⟨430, 330⟩]) :=
  ⟨by decide, snake_advance_and_grow_spec demoSnake6 ⟨0, 1⟩ (by decide)⟩

/-! ### Difficulty scaling and speed (script.js lines 694-697 and 729-732) -/

/-- The base speed computed from the score each tick (lines 730-731):
`min(1 + floor(score / 50) * SPEED_INCREASE_RATE, MAX_SPEED_MULTIPLIER)`. -/
def difficultyBaseSpeed (score : Nat) : ℚ :=
  min (1 + ((score / 50 : Nat) : ℚ) * SPEED_INCREASE_RATE) MAX_SPEED_MULTIPLIER

/-- Method `Game.updateSpeed` (lines 694-697): effective speed and movement interval from
the base speed and the user multiplier. Returns `(currentSpeed, moveInterval)`. -/
def updateSpeedValues (baseSpeed userSpeedMultiplier : ℚ) : ℚ × ℚ :=
  let currentSpeed := baseSpeed * userSpeedMultiplier
  (currentSpeed, BASE_MOVE_INTERVAL / currentSpeed)

/-- C6: the base speed multiplier equals `min(1 + floor(score / 50) * increaseRate,
maxMultiplier)`, is monotonically non-decreasing in the score, never exceeds the
configured maximum 2.0, and the effective movement interval is
`baseInterval / (baseSpeed * userSpeed)`. -/
theorem speed_scaling_spec (s t : Nat) (base user : ℚ) (hst : s ≤ t) :
    difficultyBaseSpeed s =
        min (1 + ((s / 50 : Nat) : ℚ) * SPEED_INCREASE_RATE) MAX_SPEED_MULTIPLIER ∧
      difficultyBaseSpeed s ≤ difficultyBaseSpeed t ∧
      difficultyBaseSpeed s ≤ MAX_SPEED_MULTIPLIER ∧
      (updateSpeedValues base user).2 = BASE_MOVE_INTERVAL / (base * user) := by
  refine ⟨rfl, ?_, min_le_right _ _, rfl⟩
  unfold difficultyBaseSpeed
  have hdiv : (s / 50 : Nat) ≤ (t / 50 : Nat) := Nat.div_le_div_right hst
  have hcast : ((s / 50 : Nat) : ℚ) ≤ ((t / 50 : Nat) : ℚ) := by exact_mod_cast hdiv
  have hrate : (0 : ℚ) ≤ SPEED_INCREASE_RATE := by norm_num [SPEED_INCREASE_RATE]
  have := mul_le_mul_of_nonneg_right hcast hrate
  exact min_le_min (by linarith) le_rfl

/-- Witness for C6 at concrete scores 0 and 120 with unit base and user speed. -/
theorem speed_scaling_spec_witness :
    (0 : Nat) ≤ 120 ∧
      (difficultyBaseSpeed 0 =
          min (1 + ((0 / 50 : Nat) : ℚ) * SPEED_INCREASE_RATE) MAX_SPEED_MULTIPLIER ∧
        difficultyBaseSpeed 0 ≤ difficultyBaseSpeed 120 ∧
        difficultyBaseSpeed 0 ≤ MAX_SPEED_MULTIPLIER ∧
        (updateSpeedValues 1 1).2 = BASE_MOVE_INTERVAL / (1 * 1)) :=
  ⟨by decide, speed_scaling_spec 0 120 1 1 (by decide)⟩

/-! ### AISnake (script.js lines 370-419) and the per-tick AI wall bounce
(lines 773-781) -/

/-- Simulation state of an `AISnake`: segments plus the committed and pending
headings and the decision countdown. Shape/color/blink fields are cosmetic. -/
structure AISnake where
  segments : List GVec
  direction : GVec
  nextDirection : GVec
  aiTimer : Nat
  aiChangeInterval : Nat
deriving DecidableEq

/-- One tick's worth of `Math.random` draws consumed by `updateAI`:
`intervalSeed` models `floor(random * 4)` via `% 4`, `turnRoll` models
`random < 0.25`, and `dirChoice` models `floor(random * validDirections.length)`
via `% length`. -/
structure AIRng where
  intervalSeed : Nat
  turnRoll : Bool
  dirChoice : Nat
deriving DecidableEq

/-- Method `AISnake.updateAI` (lines 383-411): advance the decision countdown; at a
decision point re-seed the countdown and, if the next cell along the current
heading is near a wall or the random turn roll fires, pick the pending heading
uniformly from the non-reverse unit directions. -/
def updateAI (w h : Int) (r : AIRng) (s : AISnake) : AISnake :=
  let t := s.aiTimer + 1
  if t ≥ s.aiChangeInterval then
    let newInterval := 4 + r.intervalSeed % 4
    let head := snakeHead s.segments
    let nextX := head.x + s.direction.x * GRID_SIZE
    let nextY := head.y + s.direction.y * GRID_SIZE
    let margin := GRID_SIZE
    let nearWall := decide (nextX < margin) || decide (nextX ≥ w - margin) ||
      decide (nextY < margin) || decide (nextY ≥ h - margin)
    if nearWall || r.turnRoll then
      let validDirections := unitDirections.filter
        (fun d => decide (¬(d.x = -s.direction.x ∧ d.y = -s.direction.y)))
      let nd := validDirections.getD (r.dirChoice % validDirections.length) s.direction
      { s with aiTimer := 0, aiChangeInterval := newInterval, nextDirection := nd }
    else
      { s with aiTimer := 0, aiChangeInterval := newInterval }
  else
    { s with aiTimer := t }

/-- The heading committed by `AISnake.update` (lines 414-417): the pending heading
is applied only when it is not the exact reverse of the current heading. -/
def aiCommittedDir (direction nextDirection : GVec) : GVec :=
  if ¬(nextDirection.x = -direction.x ∧ nextDirection.y = -direction.y) then nextDirection
  else direction

/-- Method `AISnake.update` (lines 413-419): apply the pending heading (unless it is the
exact reverse of the current one), then advance the segments along it. -/
def aiApplyMove (s : AISnake) : AISnake :=
  let dir := aiCommittedDir s.direction s.nextDirection
  { s with direction := dir, segments := snakeUpdate s.segments dir }

/-- The per-tick AI processing in `Game.update` (lines 738-742): `updateAI` then
`update` (eye updates are cosmetic and omitted). -/
def aiTickStep (w h : Int) (r : AIRng) (s : AISnake) : AISnake :=
  aiApplyMove (updateAI w h r s)

/-- The AI wall-collision handling in `Game.update` (lines 773-781): an agent whose
head is in a wall-collision position gets its pending heading forced to the exact
reverse of its current heading. -/
def aiWallBounce (w h : Int) (s : AISnake) : AISnake :=
  if checkWallCollision w h s.segments then { s with nextDirection := dirNeg s.direction }
  else s

/-- C9: a movement application never commits the exact reverse of the heading held
immediately before it, and when both headings involved are unit directions the
committed heading is either unchanged or orthogonal to the previous one (a
90-degree turn). -/
theorem ai_update_no_reversal (s : AISnake) (h1 : isUnitDir s.direction)
    (h2 : isUnitDir s.nextDirection) :
    (aiApplyMove s).direction ≠ dirNeg s.direction ∧
      ((aiApplyMove s).direction = s.direction ∨
        (aiApplyMove s).direction.x * s.direction.x +
          (aiApplyMove s).direction.y * s.direction.y = 0) := by
  have hd : (aiApplyMove s).direction = aiCommittedDir s.direction s.nextDirection := rfl
  rw [hd]
  rcases h1 with h1 | h1 | h1 | h1 <;> rcases h2 with h2 | h2 | h2 | h2 <;>
    rw [h1, h2] <;> decide

/-- A concrete AI snake one decision away from committing a turn. -/
def demoAI : AISnake :=
  { segments := [⟨310, 310⟩], direction := ⟨1, 0⟩, nextDirection := ⟨0, 1⟩,
    aiTimer := 0, aiChangeInterval := 4 }

/-- Witness for C9 at a concrete AI snake turning from right to down. -/
theorem ai_update_no_reversal_witness :
    isUnitDir demoAI.direction ∧ isUnitDir demoAI.nextDirection ∧
      ((aiApplyMove demoAI).direction ≠ dirNeg demoAI.direction ∧
        ((aiApplyMove demoAI).direction = demoAI.direction ∨
          (aiApplyMove demoAI).direction.x * demoAI.direction.x +
            (aiApplyMove demoAI).direction.y * demoAI.direction.y = 0)) :=
  ⟨by decide, by decide, ai_update_no_reversal demoAI (by decide) (by decide)⟩

/-- An AI snake heading right whose head is already in a wall-collision position
on the 1000-wide canvas (x = 990 ≥ 1000 - 10). -/
def bounceDemoAI : AISnake :=
  { segments := [⟨990, 330⟩], direction := ⟨1, 0⟩, nextDirection := ⟨1, 0⟩,
    aiTimer := 0, aiChangeInterval := 4 }

/-- The state the wall-bounce handler leaves `bounceDemoAI` in at the end of a tick. -/
def bouncedDemoAI : AISnake := aiWallBounce CANVAS_WIDTH CANVAS_HEIGHT bounceDemoAI

/-- C2: the wall bounce does set the pending heading to the exact reverse of the
current heading, but the override never takes effect: at the next movement
application the anti-reverse guard in `AISnake.update` rejects exactly that pending
reversal, for every possible random draw, so the committed heading stays unchanged
and the agent moves one further cell into the wall instead of bouncing. -/
theorem ai_wall_bounce_never_commits :
    bouncedDemoAI.nextDirection = dirNeg bounceDemoAI.direction ∧
      (∀ r : AIRng, (aiTickStep CANVAS_WIDTH CANVAS_HEIGHT r bouncedDemoAI).direction =
        bounceDemoAI.direction) ∧
      (aiTickStep CANVAS_WIDTH CANVAS_HEIGHT ⟨0, false, 0⟩ bouncedDemoAI).segments =
        [⟨1010, 330⟩] ∧
      checkWallCollision CANVAS_WIDTH CANVAS_HEIGHT
        (aiTickStep CANVAS_WIDTH CANVAS_HEIGHT ⟨0, false, 0⟩ bouncedDemoAI).segments = true := by
  refine ⟨by decide, ?_, by decide, by decide⟩
  intro r
  have h1 : updateAI CANVAS_WIDTH CANVAS_HEIGHT r bouncedDemoAI =
      { bouncedDemoAI with aiTimer := 1 } := by
    have hlt : ¬(bouncedDemoAI.aiTimer + 1 ≥ bouncedDemoAI.aiChangeInterval) := by decide
    unfold updateAI
    rw [if_neg hlt]
    decide
  unfold aiTickStep
  rw [h1]
  decide

/-! ### Food respawn (script.js lines 539-562) -/

/-- The grid position sampled at attempt `k` (lines 544-548). The random draws
`floor(random * cols)` and `floor(random * rows)` are modeled by a stream of
natural-number pairs reduced modulo the column/row counts
`floor((canvasWidth - GRID_SIZE) / GRID_SIZE)` and
`floor((canvasHeight - GRID_SIZE) / GRID_SIZE)`. -/
def sampleFoodPos (w h : Int) (rng : Nat → Nat × Nat) (k : Nat) : GVec :=
  let cols := ((w - GRID_SIZE) / GRID_SIZE).toNat
  let rows := ((h - GRID_SIZE) / GRID_SIZE).toNat
  let gridX := (rng k).1 % cols
  let gridY := (rng k).2 % rows
  ⟨(gridX : Int) * GRID_SIZE + GRID_SIZE / 2, (gridY : Int) * GRID_SIZE + GRID_SIZE / 2⟩

/-- The occupancy test of the rejection-sampling loop (lines 550-559): the candidate
position coincides with some segment of some snake. -/
def foodOnAnySnake (p : GVec) (snakes : List (List GVec)) : Bool :=
  snakes.any (fun segs => segs.any (fun seg => decide (p = seg)))

/-- The `while (!validPosition && attempts < 100)` loop of `Food.respawn`
(lines 543-561), starting at attempt `k` with the given recursion fuel: keep the
first collision-free sample; once attempt 100 is reached, keep the last sampled
(possibly occupied) position. Fuel 100 at attempt 0 covers every reachable
iteration. -/
def respawnLoop (w h : Int) (snakes : List (List GVec)) (rng : Nat → Nat × Nat) :
    Nat → Nat → GVec
  | k, 0 => sampleFoodPos w h rng k
  | k, fuel + 1 =>
    if foodOnAnySnake (sampleFoodPos w h rng k) snakes && decide (k + 1 < 100) then
      respawnLoop w h snakes rng (k + 1) fuel
    else sampleFoodPos w h rng k

/-- Method `Food.respawn` (lines 539-562): the food position after the bounded
rejection-sampling loop. -/
def foodRespawn (w h : Int) (snakes : List (List GVec)) (rng : Nat → Nat × Nat) : GVec :=
  respawnLoop w h snakes rng 0 100

/-- C3 counterexample: with a single one-segment snake at cell (0,0) and a random
stream that always draws that cell, all 100 attempts collide and `respawn` leaves
the food exactly on the snake's segment, refuting "the food position immediately
after the call coincides with no segment of any agent". -/
theorem food_respawn_exhaustion_cex :
    foodOnAnySnake (foodRespawn 1000 650 [[⟨10, 10⟩]] (fun _ => (0, 0))) [[⟨10, 10⟩]]
      = true := by
  decide

theorem respawnLoop_free_of_sample_free (w h : Int) (snakes : List (List GVec))
    (rng : Nat → Nat × Nat) :
    ∀ fuel k, 100 ≤ k + fuel →
      (∃ j, k ≤ j ∧ j < 100 ∧ foodOnAnySnake (sampleFoodPos w h rng j) snakes = false) →
      foodOnAnySnake (respawnLoop w h snakes rng k fuel) snakes = false := by
  intro fuel
  induction fuel with
  | zero =>
    intro k hk h
    obtain ⟨j, hkj, hj, _⟩ := h
    omega
  | succ n ih =>
    intro k hk h
    obtain ⟨j, hkj, hj, hfree⟩ := h
    by_cases hocc : foodOnAnySnake (sampleFoodPos w h rng k) snakes = true
    · have hjk : j ≠ k := by
        intro heq; rw [heq] at hfree; rw [hfree] at hocc
        exact Bool.false_ne_true hocc
      have hklt : k + 1 < 100 := by omega
      have hstep : respawnLoop w h snakes rng k (n + 1) =
          respawnLoop w h snakes rng (k + 1) n := by
        rw [respawnLoop, hocc]
        simp [hklt]
      rw [hstep]
      exact ih (k + 1) (by omega) ⟨j, by omega, hj, hfree⟩
    · have hfalse : foodOnAnySnake (sampleFoodPos w h rng k) snakes = false :=
        Bool.eq_false_iff.mpr hocc
      rw [respawnLoop]
      simp [hfalse]

/-- C3 (amended): whenever at least one of the 100 sampling attempts is free of all
agent segments, the food position immediately after `respawn` coincides with no
segment of any agent; on exhaustion of all 100 attempts the food is left at the
last-sampled, possibly occupied, position. -/
theorem food_respawn_free_when_sample_free (w h : Int) (snakes : List (List GVec))
    (rng : Nat → Nat × Nat)
    (hfree : ∃ j, j < 100 ∧ foodOnAnySnake (sampleFoodPos w h rng j) snakes = false) :
    foodOnAnySnake (foodRespawn w h snakes rng) snakes = false := by
  obtain ⟨j, hj, hf⟩ := hfree
  exact respawnLoop_free_of_sample_free w h snakes rng 100 0 (by omega)
    ⟨j, Nat.zero_le j, hj, hf⟩

/-- Witness for the amended C3 theorem: the same one-segment snake but a stream
drawing cell (1,1) immediately yields a food position off every segment. -/
theorem food_respawn_free_when_sample_free_witness :
    (∃ j, j < 100 ∧
        foodOnAnySnake (sampleFoodPos 1000 650 (fun _ => (1, 1)) j) [[⟨10, 10⟩]] = false) ∧
      foodOnAnySnake (foodRespawn 1000 650 [[⟨10, 10⟩]] (fun _ => (1, 1))) [[⟨10, 10⟩]]
        = false :=
  ⟨⟨0, by decide, by decide⟩,
    food_respawn_free_when_sample_free 1000 650 [[⟨10, 10⟩]] (fun _ => (1, 1))
      ⟨0, by decide, by decide⟩⟩

/-! ### Game state and the per-tick update (script.js lines 569-782) -/

/-- The simulation-relevant mutable state of the `Game` class. Canvas, DOM, and
audio handles are outside the simulation core. -/
structure GameState where
  score : Nat
  isGameOver : Bool
  isPaused : Bool
  isWaitingToStart : Bool
  gameStartTime : Int
  isGracePeriod : Bool
  baseSpeed : ℚ
  currentSpeed : ℚ
  userSpeedMultiplier : ℚ
  moveInterval : ℚ
  inputHandler : InputHandler
  playerDirection : GVec
  playerSnake : List GVec
  aiSnakes : List AISnake
  food : GVec
deriving DecidableEq

/-- Which fatal check fires for the human agent, in the evaluation order of lines
748-762: the wall test first (the left operand of the short-circuit `||` on line
750), then the self test, then each autonomous agent in spawn order; `none` when no
fatal predicate holds. -/
inductive FatalCause where
  | wall | self | aiSnake (i : Nat)
deriving DecidableEq

/-- The first fatal predicate that holds, in the source's evaluation order. -/
def firstFatal (w h : Int) (player : List GVec) (ais : List AISnake) : Option FatalCause :=
  if checkWallCollision w h player then some .wall
  else if checkSelfCollision player then some .self
  else
    match ais.findIdx? (fun a => checkCollisionWithSnake player a.segments) with
    | some i => some (.aiSnake i)
    | none => none

/-- The AI processing loop of lines 738-742 over the whole list, feeding each agent
its own tick's random draws from the stream. -/
def runAIs (w h : Int) (rng : Nat → AIRng) : List AISnake → List AISnake
  | [] => []
  | s :: rest => aiTickStep w h (rng 0) s :: runAIs w h (fun n => rng (n + 1)) rest

/-- The reassignment of the grace anchor on un-pausing (line 717):
`gameStartTime = Date.now() - (Date.now() - gameStartTime)`. -/
def resumeAnchor (now gameStartTime : Int) : Int := now - (now - gameStartTime)

/-- What `gameOver()` (lines 882-887) publishes when the session ends: the final
score and the status text. No failure-cause value exists anywhere in the game
state or its outputs. -/
def gameOverReport (g : GameState) : Nat × String := (g.score, "GAME OVER")

/-- Method `Game.update` (lines 699-782), one simulation tick: start/pause handling, the
grace-period flag, difficulty scaling, input dequeue, AI and player movement, fatal
collision checks (skipped during grace), food collection, and the AI wall bounce.
`now` is the tick's `Date.now()`; `aiRng` and `foodRng` are the tick's random
draws. UI, audio, and eye-blink updates are outside the simulation core. -/
def gameUpdate (g : GameState) (now : Int) (aiRng : Nat → AIRng)
    (foodRng : Nat → Nat × Nat) : GameState :=
  if g.isGameOver then g
  else if g.isWaitingToStart then
    let sp := checkStartPressed g.inputHandler
    if sp.1 then
      { g with
        isWaitingToStart := false
        gameStartTime := now
        isGracePeriod := true
        inputHandler := sp.2 }
    else
      let pt := checkPauseToggle sp.2
      if pt.1 then
        { g with
          isWaitingToStart := false
          gameStartTime := now
          isGracePeriod := true
          inputHandler := pt.2 }
      else { g with inputHandler := pt.2 }
  else
    let pt := checkPauseToggle g.inputHandler
    let paused := if pt.1 then !g.isPaused else g.isPaused
    let startTime := if pt.1 && !paused then resumeAnchor now g.gameStartTime
      else g.gameStartTime
    let g1 : GameState :=
      { g with
        inputHandler := pt.2
        isPaused := paused
        gameStartTime := startTime }
    if paused then g1
    else
      let grace := decide (now - startTime < GRACE_PERIOD)
      let newBaseSpeed := difficultyBaseSpeed g.score
      let speeds := updateSpeedValues newBaseSpeed g.userSpeedMultiplier
      let nd := getNextDirection pt.2
      let movedAIs := runAIs CANVAS_WIDTH CANVAS_HEIGHT aiRng g.aiSnakes
      let movedPlayer := snakeUpdate g.playerSnake nd.1
      let g2 : GameState :=
        { g1 with
          isGracePeriod := grace
          baseSpeed := newBaseSpeed
          currentSpeed := speeds.1
          moveInterval := speeds.2
          inputHandler := nd.2
          playerDirection := nd.1
          aiSnakes := movedAIs
          playerSnake := movedPlayer }
      if !grace && (firstFatal CANVAS_WIDTH CANVAS_HEIGHT movedPlayer movedAIs).isSome then
        { g2 with isGameOver := true }
      else
        let ate := checkFoodCollision movedPlayer g.food
        let grownPlayer := if ate then snakeGrow movedPlayer else movedPlayer
        let newScore := if ate then g.score + 10 else g.score
        let newFood :=
          if ate then
            foodRespawn CANVAS_WIDTH CANVAS_HEIGHT
              (grownPlayer :: movedAIs.map (fun a => a.segments)) foodRng
          else g.food
        let bouncedAIs := movedAIs.map (aiWallBounce CANVAS_WIDTH CANVAS_HEIGHT)
        { g2 with
          playerSnake := grownPlayer
          score := newScore
          food := newFood
          aiSnakes := bouncedAIs }

/-- A running, un-paused session whose pause key is up, so the tick neither starts,
toggles pause, nor is a game-over no-op. -/
def runningFreely (g : GameState) : Prop :=
  g.isGameOver = false ∧ g.isWaitingToStart = false ∧ g.isPaused = false ∧
    g.inputHandler.pauseKeyDown = false

instance (g : GameState) : Decidable (runningFreely g) := by
  unfold runningFreely; infer_instance

theorem checkPauseToggle_keyUp {ih : InputHandler} (h : ih.pauseKeyDown = false) :
    checkPauseToggle ih = (false, ih) := by
  unfold checkPauseToggle
  rw [h]
  simp

/-- What a tick inside the grace period must do: leave the session alive, advance
the player by the dequeued heading, apply food collection (growth, +10 score, food
respawn) exactly as usual, run the AI movement updates and the AI wall bounce, and
flag the grace period. -/
def graceTickSpec (g : GameState) (now : Int) (aiRng : Nat → AIRng)
    (foodRng : Nat → Nat × Nat) : Prop :=
  (gameUpdate g now aiRng foodRng).isGameOver = false ∧
    (gameUpdate g now aiRng foodRng).playerSnake =
      (if checkFoodCollision (snakeUpdate g.playerSnake (getNextDirection g.inputHandler).1)
          g.food then
        snakeGrow (snakeUpdate g.playerSnake (getNextDirection g.inputHandler).1)
      else snakeUpdate g.playerSnake (getNextDirection g.inputHandler).1) ∧
    (gameUpdate g now aiRng foodRng).score =
      (if checkFoodCollision (snakeUpdate g.playerSnake (getNextDirection g.inputHandler).1)
          g.food then g.score + 10
      else g.score) ∧
    (gameUpdate g now aiRng foodRng).food =
      (if checkFoodCollision (snakeUpdate g.playerSnake (getNextDirection g.inputHandler).1)
          g.food then
        foodRespawn CANVAS_WIDTH CANVAS_HEIGHT
          (snakeGrow (snakeUpdate g.playerSnake (getNextDirection g.inputHandler).1) ::
            (runAIs CANVAS_WIDTH CANVAS_HEIGHT aiRng g.aiSnakes).map (fun a => a.segments))
          foodRng
      else g.food) ∧
    (gameUpdate g now aiRng foodRng).aiSnakes =
      (runAIs CANVAS_WIDTH CANVAS_HEIGHT aiRng g.aiSnakes).map
        (aiWallBounce CANVAS_WIDTH CANVAS_HEIGHT) ∧
    (gameUpdate g now aiRng foodRng).isGracePeriod = true

/-- C8: on every tick within the grace period (elapsed time since the Running
anchor below the grace duration), the session never ends, the player and every
autonomous agent move normally, and food collection (growth, scoring, respawn)
still applies. -/
theorem grace_period_behavior (g : GameState) (now : Int) (aiRng : Nat → AIRng)
    (foodRng : Nat → Nat × Nat) (hrun : runningFreely g)
    (hgrace : now - g.gameStartTime < GRACE_PERIOD) :
    graceTickSpec g now aiRng foodRng := by
  obtain ⟨h1, h2, h3, h4⟩ := hrun
  unfold graceTickSpec gameUpdate
  rw [checkPauseToggle_keyUp h4]
  simp only [h1, h2, h3, Bool.false_eq_true, if_false, ite_false, Bool.not_false,
    Bool.not_true, Bool.false_and, Bool.and_false, decide_eq_true_eq]
  simp [hgrace]
  split <;> simp_all

/-- A fixed stream of AI random draws for concrete states. -/
def demoAIRng : Nat → AIRng := fun _ => ⟨0, false, 0⟩

/-- A fixed stream of food-placement draws for concrete states. -/
def demoFoodRng : Nat → Nat × Nat := fun _ => (0, 0)

/-- A concrete running session inside the grace period. -/
def demoGame : GameState :=
  { score := 0
    isGameOver := false
    isPaused := false
    isWaitingToStart := false
    gameStartTime := 0
    isGracePeriod := true
    baseSpeed := 1
    currentSpeed := 1
    userSpeedMultiplier := 1
    moveInterval := BASE_MOVE_INTERVAL
    inputHandler := initInput
    playerDirection := ⟨1, 0⟩
    playerSnake := demoSnake6
    aiSnakes := [demoAI]
    food := ⟨10, 10⟩ }

/-- Witness for C8 at the concrete in-grace session. -/
theorem grace_period_behavior_witness :
    runningFreely demoGame ∧ (0 : Int) - demoGame.gameStartTime < GRACE_PERIOD ∧
      graceTickSpec demoGame 0 demoAIRng demoFoodRng :=
  ⟨by decide, by decide,
    grace_period_behavior demoGame 0 demoAIRng demoFoodRng (by decide) (by decide)⟩

/-- What a tick must do when, outside the grace period, the player's new head is in
a wall-collision position: end the session via the wall check (the first predicate
in evaluation order), with the food step and the AI wall bounce skipped by the
early return. -/
def wallTickSpec (g : GameState) (now : Int) (aiRng : Nat → AIRng)
    (foodRng : Nat → Nat × Nat) : Prop :=
  (gameUpdate g now aiRng foodRng).isGameOver = true ∧
    firstFatal CANVAS_WIDTH CANVAS_HEIGHT
        (snakeUpdate g.playerSnake (getNextDirection g.inputHandler).1)
        (runAIs CANVAS_WIDTH CANVAS_HEIGHT aiRng g.aiSnakes) = some FatalCause.wall ∧
    (gameUpdate g now aiRng foodRng).score = g.score ∧
    (gameUpdate g now aiRng foodRng).food = g.food ∧
    (gameUpdate g now aiRng foodRng).aiSnakes =
      runAIs CANVAS_WIDTH CANVAS_HEIGHT aiRng g.aiSnakes

/-- C7 (amended): outside the grace period the fatal checks run in the fixed order
wall, then self, then each autonomous agent in spawn order, with the first true
predicate ending the session; a player in a wall-violating position ends the
session via the wall check regardless of any simultaneous overlap with an
autonomous agent. No failure reason is reported: the game-over report carries only
the final score and status text, identical for every cause of death. -/
theorem wall_precedence (g : GameState) (now : Int) (aiRng : Nat → AIRng)
    (foodRng : Nat → Nat × Nat) (hrun : runningFreely g)
    (hgrace : GRACE_PERIOD ≤ now - g.gameStartTime)
    (hwall : checkWallCollision CANVAS_WIDTH CANVAS_HEIGHT
      (snakeUpdate g.playerSnake (getNextDirection g.inputHandler).1) = true) :
    wallTickSpec g now aiRng foodRng := by
  obtain ⟨h1, h2, h3, h4⟩ := hrun
  have hnotgrace : ¬(now - g.gameStartTime < GRACE_PERIOD) := not_lt.mpr hgrace
  have hff : ∀ ais, firstFatal CANVAS_WIDTH CANVAS_HEIGHT
      (snakeUpdate g.playerSnake (getNextDirection g.inputHandler).1) ais =
      some FatalCause.wall := by
    intro ais
    unfold firstFatal
    rw [hwall]
    simp
  unfold wallTickSpec gameUpdate
  rw [checkPauseToggle_keyUp h4]
  simp only [h1, h2, h3, Bool.false_eq_true, if_false, ite_false, Bool.not_false,
    Bool.not_true, Bool.false_and, Bool.and_false, decide_eq_true_eq]
  simp [hnotgrace, hff]

/-- A session outside the grace period about to die on the wall while also
overlapping an autonomous agent at the same cell. -/
def wallDeathGame : GameState :=
  { demoGame with
    isGracePeriod := false
    playerSnake := [⟨980, 330⟩]
    aiSnakes := [⟨[⟨980, 330⟩], ⟨1, 0⟩, ⟨1, 0⟩, 0, 4⟩] }

/-- A session outside the grace period about to die only on an autonomous agent,
far from every wall. -/
def aiDeathGame : GameState :=
  { demoGame with
    isGracePeriod := false
    playerSnake := [⟨480, 330⟩]
    aiSnakes := [⟨[⟨480, 330⟩], ⟨1, 0⟩, ⟨1, 0⟩, 0, 4⟩] }

/-- C7 counterexample: a wall-and-agent death and a pure agent death both end the
session with literally identical game-over reports, so no wall failure reason is
reported, refuting the claim's "with the wall failure reason reported". -/
theorem gameOver_report_no_reason_cex :
    (gameUpdate wallDeathGame 5000 demoAIRng demoFoodRng).isGameOver = true ∧
      checkWallCollision CANVAS_WIDTH CANVAS_HEIGHT
        (gameUpdate wallDeathGame 5000 demoAIRng demoFoodRng).playerSnake = true ∧
      checkCollisionWithSnake
        (gameUpdate wallDeathGame 5000 demoAIRng demoFoodRng).playerSnake
        (((gameUpdate wallDeathGame 5000 demoAIRng demoFoodRng).aiSnakes.headD
          demoAI).segments) = true ∧
      (gameUpdate aiDeathGame 5000 demoAIRng demoFoodRng).isGameOver = true ∧
      checkWallCollision CANVAS_WIDTH CANVAS_HEIGHT
        (gameUpdate aiDeathGame 5000 demoAIRng demoFoodRng).playerSnake = false ∧
      gameOverReport (gameUpdate wallDeathGame 5000 demoAIRng demoFoodRng) =
        gameOverReport (gameUpdate aiDeathGame 5000 demoAIRng demoFoodRng) := by
  decide

/-- Witness for the amended C7 theorem at the concrete wall-and-agent death state. -/
theorem wall_precedence_witness :
    runningFreely wallDeathGame ∧
      GRACE_PERIOD ≤ (5000 : Int) - wallDeathGame.gameStartTime ∧
      checkWallCollision CANVAS_WIDTH CANVAS_HEIGHT
        (snakeUpdate wallDeathGame.playerSnake
          (getNextDirection wallDeathGame.inputHandler).1) = true ∧
      wallTickSpec wallDeathGame 5000 demoAIRng demoFoodRng :=
  ⟨by decide, by decide, by decide,
    wall_precedence wallDeathGame 5000 demoAIRng demoFoodRng (by decide) (by decide)
      (by decide)⟩

/-- C10: the un-pause assignment `gameStartTime = Date.now() - (Date.now() -
gameStartTime)` is an identity, so resuming leaves the grace anchor unchanged,
wall-clock time spent paused still counts toward grace expiry, and the grace
period can elapse entirely while paused. -/
theorem pause_resume_grace_anchor (g : GameState) (now : Int) (aiRng : Nat → AIRng)
    (foodRng : Nat → Nat × Nat) (h1 : g.isGameOver = false)
    (h2 : g.isWaitingToStart = false) (h3 : g.isPaused = true)
    (h4 : g.inputHandler.pauseKeyDown = true) (h5 : g.inputHandler.pauseKeyWasDown = false) :
    resumeAnchor now g.gameStartTime = g.gameStartTime ∧
      (gameUpdate g now aiRng foodRng).gameStartTime = g.gameStartTime ∧
      (gameUpdate g now aiRng foodRng).isPaused = false ∧
      (gameUpdate g now aiRng foodRng).isGracePeriod =
        decide (now - g.gameStartTime < GRACE_PERIOD) := by
  have hanchor : resumeAnchor now g.gameStartTime = g.gameStartTime := by
    unfold resumeAnchor; omega
  have hpt : checkPauseToggle g.inputHandler =
      (true, { g.inputHandler with pauseKeyWasDown := true }) := by
    simp [checkPauseToggle, h4, h5]
  refine ⟨hanchor, ?_, ?_, ?_⟩ <;>
    (unfold gameUpdate; rw [hpt]; simp only [h1, h2, h3, hanchor, Bool.not_true,
      Bool.not_false, Bool.and_true, Bool.true_and, Bool.and_false, Bool.false_and,
      Bool.and_self, Bool.false_eq_true, if_false, ite_false, ite_true, if_true]) <;>
    split <;> simp

/-- A concrete paused session whose pause key has just gone down again. -/
def pausedDemoGame : GameState :=
  { demoGame with
    isPaused := true
    inputHandler := { initInput with pauseKeyDown := true } }

/-- Witness for C10: resuming at time 5000 a session paused since time 0 keeps the
anchor at 0, and the grace period has expired entirely while paused. -/
theorem pause_resume_grace_anchor_witness :
    pausedDemoGame.isGameOver = false ∧ pausedDemoGame.isWaitingToStart = false ∧
      pausedDemoGame.isPaused = true ∧ pausedDemoGame.inputHandler.pauseKeyDown = true ∧
      pausedDemoGame.inputHandler.pauseKeyWasDown = false ∧
      (resumeAnchor 5000 pausedDemoGame.gameStartTime = pausedDemoGame.gameStartTime ∧
        (gameUpdate pausedDemoGame 5000 demoAIRng demoFoodRng).gameStartTime =
          pausedDemoGame.gameStartTime ∧
        (gameUpdate pausedDemoGame 5000 demoAIRng demoFoodRng).isPaused = false ∧
        (gameUpdate pausedDemoGame 5000 demoAIRng demoFoodRng).isGracePeriod =
          decide ((5000 : Int) - pausedDemoGame.gameStartTime < GRACE_PERIOD)) :=
  ⟨by decide, by decide, by decide, by decide, by decide,
    pause_resume_grace_anchor pausedDemoGame 5000 demoAIRng demoFoodRng (by decide)
      (by decide) (by decide) (by decide) (by decide)⟩

end SnakeGame
